import Mathlib

/-!
# Verification of the `stoplight` stoppable-thread library

Shallow embedding of `src/lib.rs`.  The library couples a spawned worker
thread with a shared cancellation flag (`Arc<AtomicBool>`):

* `Thread::spawn(f)` allocates a fresh flag initialized to `false`, clones
  the `Arc` into the handle, and runs `f(flag)` on a new thread;
* `Thread::stop(&self)` performs `self.stop.store(true, Relaxed)`;
* `Thread::join(self)` delegates to `JoinHandle::join`, returning
  `Ok(v)` on normal return of the closure and `Err(payload)` if it panicked.

Modelling decisions:

* Every allocated `AtomicBool` lives in a `World`: a list of booleans
  indexed by allocation order; an `Arc<AtomicBool>` is modelled by its
  index (`FlagId`).  `Arc` aliasing is sharing of the index.
* The user closure `F: FnOnce(Arc<AtomicBool>) -> T` is an interaction
  tree `UserFn E T`: it can return a value, panic with a payload of type
  `E` (the opaque `Box<dyn Any + Send>`), or perform an atomic `load` /
  `store` on any flag index it holds.  `store` is included because the
  worker receives the full `Arc<AtomicBool>`, whose `store` method is
  public.
* Concurrency is collapsed to the quiescent interleaving: the worker's
  execution is evaluated when `join` blocks on it.  During `join` the
  owner (the only other context that can write this handle's flag) is
  suspended, so the flag store seen by the worker is fixed except for the
  worker's own stores; owner-side operations before `join` are explicit
  `World` transitions.  Relaxed-ordering subtleties are out of scope: the
  flag is a single monotone cell with no cross-variable ordering claims.
-/

namespace Stoplight

/-- Index of an allocated `AtomicBool` cell: the identity of one
`Arc<AtomicBool>` clone family. -/
abbrev FlagId := Nat

/-- The store of all cancellation flags allocated so far, in allocation
order.  `World.flags[i]` is the current value of the `AtomicBool` with
identity `i`. -/
structure World where
  flags : List Bool
deriving DecidableEq, Repr

/-- Atomic load of flag `i` (`AtomicBool::load`).  Unallocated indices read
`false`; they never arise for flags obtained from `spawn`. -/
def World.read (w : World) (i : FlagId) : Bool :=
  w.flags.getD i false

/-- Atomic store to flag `i` (`AtomicBool::store`).  A no-op on
unallocated indices (they never arise for flags obtained from `spawn`). -/
def World.write (w : World) (i : FlagId) (b : Bool) : World :=
  ⟨w.flags.set i b⟩

/-- `Arc::new(AtomicBool::new(b))`: allocate a fresh flag with initial
value `b`, returning its identity and the extended store. -/
def World.alloc (w : World) (b : Bool) : FlagId × World :=
  (w.flags.length, ⟨w.flags ++ [b]⟩)

/-- The user closure `F: FnOnce(Arc<AtomicBool>) -> T`, as an interaction
tree over the flag store.  `E` is the panic-payload type (the opaque
`Box<dyn Any + Send>`); `T` is the return type.  Between flag accesses the
closure computes pure Lean values, so `ret`, `panic`, `load` and `store`
are the only observable events. -/
inductive UserFn (E T : Type) : Type where
  | ret (v : T)
  | panic (p : E)
  | load (i : FlagId) (k : Bool → UserFn E T)
  | store (i : FlagId) (b : Bool) (k : UserFn E T)

/-- Run the worker closure to completion against the flag store.  A panic
is caught by the thread runtime and becomes `Except.error` (the `Err` of
`JoinHandle::join`); `load`/`store` act on the shared store. -/
def UserFn.run {E T : Type} : UserFn E T → World → Except E T × World
  | .ret v, w => (.ok v, w)
  | .panic p, w => (.error p, w)
  | .load i k, w => (k (w.read i)).run w
  | .store i b k, w => k.run (w.write i b)

/-- `std::thread::JoinHandle<T>`: the handle to the spawned worker, holding
the not-yet-joined closure `move || f(stop)`. -/
structure JoinHandle (E T : Type) where
  worker : UserFn E T

/-- `Thread<T>` from `src/lib.rs`: `jh: JoinHandle<T>` plus the handle's
clone of the cancellation flag (field `stop` in the source; named
`stopFlag` here because the method `Thread::stop` shares that name). -/
structure Thread (E T : Type) where
  jh : JoinHandle E T
  stopFlag : FlagId

/-- `Thread::spawn`: allocate `Arc::new(AtomicBool::new(false))`, hand one
clone to the closure and keep one in the handle. -/
def Thread.spawn {E T : Type} (w : World) (f : FlagId → UserFn E T) :
    Thread E T × World :=
  let a := w.alloc false
  (⟨⟨f a.1⟩, a.1⟩, a.2)

/-- `Thread::join`: wait for the worker and return its result
(`Ok` value or `Err` panic payload).  The returned `World` is the flag
store after the worker has finished; `join` itself touches no flag, so any
difference from the input store comes from the worker's own stores. -/
def Thread.join {E T : Type} (t : Thread E T) (w : World) :
    Except E T × World :=
  t.jh.worker.run w

/-- `Thread::stop`: `self.stop.store(true, Ordering::Relaxed)`.  Takes the
handle by shared reference in the source, so it returns only the updated
store. -/
def Thread.stop {E T : Type} (t : Thread E T) (w : World) : World :=
  w.write t.stopFlag true

/-- Iterated `Thread::stop`: `n` successive calls on the same handle. -/
def Thread.stopN {E T : Type} (t : Thread E T) (n : Nat) (w : World) :
    World :=
  match n with
  | 0 => w
  | n + 1 => t.stop (t.stopN n w)

/-- The owner-side operations of the library that mutate the flag store:
`Thread::spawn` allocates a fresh `false` flag, `Thread::stop` stores
`true` into an existing one.  `Thread::join` performs no flag access of
its own. -/
inductive Op where
  | spawnOp
  | stopOp (i : FlagId)
deriving DecidableEq, Repr

/-- Effect of one owner-side library operation on the flag store. -/
def Op.apply (w : World) : Op → World
  | .spawnOp => (w.alloc false).2
  | .stopOp i => w.write i true

/-- Effect of a sequence of owner-side library operations. -/
def applyOps (w : World) : List Op → World
  | [] => w
  | o :: l => applyOps (o.apply w) l

/-- A well-behaved worker for flag `i`: it only ever loads flag `i` and
never stores to any flag — the intended use of the `Arc<AtomicBool>`
handed over by `spawn` (the closure polls its own flag). -/
inductive UserFn.ReadsOnly {E T : Type} (i : FlagId) : UserFn E T → Prop where
  | ret (v : T) : ReadsOnly i (.ret v)
  | panic (p : E) : ReadsOnly i (.panic p)
  | load (k : Bool → UserFn E T) :
      (∀ b, ReadsOnly i (k b)) → ReadsOnly i (.load i k)

/-- Run a worker feeding the fixed value `b` to every one of its loads:
the behaviour of a read-only worker whose flag holds `b` throughout. -/
def UserFn.runFixed {E T : Type} : UserFn E T → Bool → Except E T
  | .ret v, _ => .ok v
  | .panic p, _ => .error p
  | .load _ k, b => (k b).runFixed b
  | .store _ _ k, b => k.runFixed b

/-- A concrete well-behaved worker for test scenarios: it returns the
current value of the flag it was handed (one `load`, no `store`). -/
def pollWorker : FlagId → UserFn Unit Bool :=
  fun i => UserFn.load i (fun b => UserFn.ret b)

/-- A concrete flag-ignoring worker for test scenarios: it returns the
constant `v` without touching its flag. -/
def constWorker (v : Nat) : FlagId → UserFn Unit Nat :=
  fun _ => UserFn.ret v

/-! ## Basic lemmas about the flag store -/

theorem World.read_write_self (w : World) (i : FlagId) (b : Bool)
    (h : i < w.flags.length) : (w.write i b).read i = b := by
  simp [World.read, World.write, List.getD, List.getElem?_set_self, h]

theorem World.read_write_ne (w : World) (i j : FlagId) (b : Bool)
    (h : j ≠ i) : (w.write j b).read i = w.read i := by
  simp [World.read, World.write, List.getD, List.getElem?_set_ne h]

theorem World.read_true_lt (w : World) (i : FlagId)
    (h : w.read i = true) : i < w.flags.length := by
  rcases Nat.lt_or_ge i w.flags.length with h' | h'
  · exact h'
  · rw [World.read, List.getD_eq_default _ _ h'] at h
    exact absurd h (by simp)

theorem World.read_alloc_fresh (w : World) (b : Bool) :
    (w.alloc b).2.read (w.alloc b).1 = b := by
  simp [World.alloc, World.read, List.getD, List.getElem?_append_right]

theorem World.read_alloc_old (w : World) (b : Bool) (i : FlagId)
    (h : i < w.flags.length) : (w.alloc b).2.read i = w.read i := by
  simp [World.alloc, World.read, List.getD, List.getElem?_append_left h]

theorem World.length_write (w : World) (i : FlagId) (b : Bool) :
    (w.write i b).flags.length = w.flags.length := by
  simp [World.write]

/-- Owner-side library operations never shrink the store and never write
`false`: a flag reading `true` still reads `true` after any one of them. -/
theorem Op.read_mono (w : World) (o : Op) (i : FlagId)
    (h : w.read i = true) : (o.apply w).read i = true := by
  cases o with
  | spawnOp =>
      rw [Op.apply, World.read_alloc_old w false i (World.read_true_lt w i h)]
      exact h
  | stopOp j =>
      rw [Op.apply]
      rcases eq_or_ne j i with rfl | hne
      · exact World.read_write_self w j true (World.read_true_lt w j h)
      · rw [World.read_write_ne w i j true hne]; exact h

/-- Flag monotonicity over arbitrary sequences of owner-side operations. -/
theorem applyOps_read_mono (l : List Op) (w : World) (i : FlagId)
    (h : w.read i = true) : (applyOps w l).read i = true := by
  induction l generalizing w with
  | nil => exact h
  | cons o l ih => exact ih (o.apply w) (Op.read_mono w o i h)

/-! ## Basic lemmas about worker execution -/

/-- A read-only worker leaves the flag store untouched. -/
theorem UserFn.run_readsOnly_world {E T : Type} {i : FlagId}
    {f : UserFn E T} (h : f.ReadsOnly i) (w : World) :
    (f.run w).2 = w := by
  induction h with
  | ret v => rfl
  | panic p => rfl
  | load k _ ih => exact ih (w.read i)

/-- A read-only worker for flag `i` behaves as if every load returned the
current value of flag `i`: its result is `runFixed` at that value. -/
theorem UserFn.run_readsOnly_fst {E T : Type} {i : FlagId}
    {f : UserFn E T} (h : f.ReadsOnly i) (w : World) :
    (f.run w).1 = f.runFixed (w.read i) := by
  induction h with
  | ret v => rfl
  | panic p => rfl
  | load k _ ih => exact ih (w.read i)

/-! ## Reduction lemmas for `Thread::spawn` and `Thread::stop` -/

theorem Thread.spawn_stopFlag {E T : Type} (w : World)
    (f : FlagId → UserFn E T) :
    (Thread.spawn w f).1.stopFlag = w.flags.length := rfl

theorem Thread.spawn_world {E T : Type} (w : World)
    (f : FlagId → UserFn E T) :
    (Thread.spawn w f).2 = ⟨w.flags ++ [false]⟩ := rfl

theorem Thread.spawn_worker {E T : Type} (w : World)
    (f : FlagId → UserFn E T) :
    (Thread.spawn w f).1.jh.worker = f w.flags.length := rfl

/-- The handle's flag id is in range in the store `spawn` returns. -/
theorem Thread.spawn_stopFlag_lt {E T : Type} (w : World)
    (f : FlagId → UserFn E T) :
    (Thread.spawn w f).1.stopFlag < (Thread.spawn w f).2.flags.length := by
  simp [Thread.spawn_stopFlag, Thread.spawn_world]

/-- Right after `spawn` the fresh flag reads `false`. -/
theorem Thread.read_spawn_fresh {E T : Type} (w : World)
    (f : FlagId → UserFn E T) :
    (Thread.spawn w f).2.read (Thread.spawn w f).1.stopFlag = false :=
  World.read_alloc_fresh w false

/-- Right after `stop` on a freshly spawned handle, its flag reads
`true`. -/
theorem Thread.read_stop_spawn {E T : Type} (w : World)
    (f : FlagId → UserFn E T) :
    (Thread.stop (Thread.spawn w f).1 (Thread.spawn w f).2).read
      (Thread.spawn w f).1.stopFlag = true :=
  World.read_write_self _ _ _ (Thread.spawn_stopFlag_lt w f)

/-- Two consecutive `stop` calls have the effect of one: the second
`store(true)` overwrites `true` with `true`. -/
theorem Thread.stop_stop {E T : Type} (t : Thread E T) (w : World) :
    t.stop (t.stop w) = t.stop w := by
  simp [Thread.stop, World.write, List.set_set]

/-- `n ≥ 1` iterated `stop` calls equal a single one. -/
theorem Thread.stopN_eq_stop {E T : Type} (t : Thread E T) (w : World)
    (n : Nat) (hn : 1 ≤ n) : t.stopN n w = t.stop w := by
  induction n with
  | zero => omega
  | succ n ih =>
      rcases Nat.eq_zero_or_pos n with h1 | h1
      · subst h1; rfl
      · rw [Thread.stopN, ih h1, Thread.stop_stop]

/-! ## The claims -/

/-- C1: for every user function `f` that returns a value `v` without
interacting with the cancellation flag (in the interaction-tree embedding:
`f` is the constant `ret v`, performing no `load` or `store`), spawning
`f` and then joining the returned handle yields exactly `Ok(v)`. -/
theorem claim1_normal_completion {E T : Type} (w : World)
    (f : FlagId → UserFn E T) (v : T)
    (h : ∀ i, f i = UserFn.ret v) :
    (Thread.join (Thread.spawn w f).1 (Thread.spawn w f).2).1
      = Except.ok v := by
  simp [Thread.join, Thread.spawn_worker, h, UserFn.run]

/-- Witness for C1: joining a spawned worker that returns `42` yields
`Ok 42`. -/
theorem claim1_normal_completion_witness :
    (Thread.join
        (Thread.spawn (E := Unit) ⟨[]⟩ (fun _ => UserFn.ret (42 : Nat))).1
        (Thread.spawn (E := Unit) ⟨[]⟩ (fun _ => UserFn.ret (42 : Nat))).2).1
      = Except.ok 42 :=
  claim1_normal_completion ⟨[]⟩ _ 42 (fun _ => rfl)

/-- C2: for every user function that panics with payload `p`, `join` on
the handle returns `Err(p)` carrying that payload, and the caller's
execution context is not crashed: `join` returns the failure as an
ordinary value. -/
theorem claim2_panic_propagation {E T : Type} (w : World)
    (f : FlagId → UserFn E T) (p : E)
    (h : ∀ i, f i = UserFn.panic p) :
    (Thread.join (Thread.spawn w f).1 (Thread.spawn w f).2).1
      = Except.error p := by
  simp [Thread.join, Thread.spawn_worker, h, UserFn.run]

/-- Witness for C2: a worker that panics with payload `"boom"` makes
`join` return `Err "boom"`. -/
theorem claim2_panic_propagation_witness :
    (Thread.join
        (Thread.spawn (T := Nat) ⟨[]⟩ (fun _ => UserFn.panic "boom")).1
        (Thread.spawn (T := Nat) ⟨[]⟩ (fun _ => UserFn.panic "boom")).2).1
      = Except.error "boom" :=
  claim2_panic_propagation ⟨[]⟩ _ "boom" (fun _ => rfl)

/-- C3: after `stop` on a handle returns, every subsequent read of that
handle's flag observes `true`: reads of the store after any further
owner-side operations, and every load the worker performs through the
flag it was given at spawn (the worker polling its own flag behaves as
`runFixed true`: each of its loads yields `true`). -/
theorem claim3_stop_visibility {E T : Type} (w : World)
    (f : FlagId → UserFn E T) (l : List Op)
    (hf : ∀ i, (f i).ReadsOnly i) :
    (applyOps (Thread.stop (Thread.spawn w f).1 (Thread.spawn w f).2) l).read
        (Thread.spawn w f).1.stopFlag = true
    ∧ ((f (Thread.spawn w f).1.stopFlag).run
        (applyOps (Thread.stop (Thread.spawn w f).1 (Thread.spawn w f).2)
          l)).1
      = (f (Thread.spawn w f).1.stopFlag).runFixed true := by
  have h1 := applyOps_read_mono l _ _ (Thread.read_stop_spawn w f)
  exact ⟨h1, by rw [UserFn.run_readsOnly_fst (hf _) _, h1]⟩

/-- Witness for C3 with a worker that returns the value of its own flag:
after `stop`, the flag reads `true` and the worker's run observes
`true`. -/
theorem claim3_stop_visibility_witness :
    (applyOps
        (Thread.stop
          (Thread.spawn (E := Unit) ⟨[]⟩
            (fun i => UserFn.load i (fun b => UserFn.ret b))).1
          (Thread.spawn (E := Unit) ⟨[]⟩
            (fun i => UserFn.load i (fun b => UserFn.ret b))).2) []).read
        (Thread.spawn (E := Unit) ⟨[]⟩
          (fun i => UserFn.load i (fun b => UserFn.ret b))).1.stopFlag = true
    ∧ (((fun i => UserFn.load (E := Unit) i (fun b => UserFn.ret b))
          ((Thread.spawn (E := Unit) ⟨[]⟩
            (fun i => UserFn.load i (fun b => UserFn.ret b))).1.stopFlag)).run
          (applyOps
            (Thread.stop
              (Thread.spawn (E := Unit) ⟨[]⟩
                (fun i => UserFn.load i (fun b => UserFn.ret b))).1
              (Thread.spawn (E := Unit) ⟨[]⟩
                (fun i => UserFn.load i (fun b => UserFn.ret b))).2)
            [])).1
      = ((fun i => UserFn.load (E := Unit) i (fun b => UserFn.ret b))
          ((Thread.spawn (E := Unit) ⟨[]⟩
            (fun i => UserFn.load i (fun b => UserFn.ret b))).1.stopFlag)).runFixed
          true :=
  claim3_stop_visibility ⟨[]⟩ (fun i => UserFn.load i (fun b => UserFn.ret b))
    [] (fun _ => UserFn.ReadsOnly.load _ (fun b => UserFn.ReadsOnly.ret b))

/-- C4: `join` mutates no flag — for a handle whose worker polls only its
own flag and terminates on its own, with no `stop` call, `join` returns
the store unchanged, the flag still reads `false`, and the worker's
result is the one computed with every load observing `false` (`join`
never implicitly requests a stop). -/
theorem claim4_join_no_mutation {E T : Type} (w : World)
    (f : FlagId → UserFn E T) (hf : ∀ i, (f i).ReadsOnly i) :
    (Thread.join (Thread.spawn w f).1 (Thread.spawn w f).2).2
      = (Thread.spawn w f).2
    ∧ (Thread.spawn w f).2.read (Thread.spawn w f).1.stopFlag = false
    ∧ (Thread.join (Thread.spawn w f).1 (Thread.spawn w f).2).1
      = (f (Thread.spawn w f).1.stopFlag).runFixed false := by
  refine ⟨UserFn.run_readsOnly_world (hf _) _, Thread.read_spawn_fresh w f, ?_⟩
  have h2 : (Thread.join (Thread.spawn w f).1 (Thread.spawn w f).2).1
      = (f (Thread.spawn w f).1.stopFlag).runFixed
          ((Thread.spawn w f).2.read (Thread.spawn w f).1.stopFlag) :=
    UserFn.run_readsOnly_fst (hf _) _
  rw [h2, Thread.read_spawn_fresh w f]

/-- Witness for C4 with a worker that returns its own flag's value:
no mutation of the store, flag still `false`, result `Ok false`. -/
theorem claim4_join_no_mutation_witness :
    (Thread.join
        (Thread.spawn (E := Unit) ⟨[]⟩
          (fun i => UserFn.load i (fun b => UserFn.ret b))).1
        (Thread.spawn (E := Unit) ⟨[]⟩
          (fun i => UserFn.load i (fun b => UserFn.ret b))).2).2
      = (Thread.spawn (E := Unit) ⟨[]⟩
          (fun i => UserFn.load i (fun b => UserFn.ret b))).2
    ∧ (Thread.spawn (E := Unit) ⟨[]⟩
          (fun i => UserFn.load i (fun b => UserFn.ret b))).2.read
        (Thread.spawn (E := Unit) ⟨[]⟩
          (fun i => UserFn.load i (fun b => UserFn.ret b))).1.stopFlag
      = false
    ∧ (Thread.join
        (Thread.spawn (E := Unit) ⟨[]⟩
          (fun i => UserFn.load i (fun b => UserFn.ret b))).1
        (Thread.spawn (E := Unit) ⟨[]⟩
          (fun i => UserFn.load i (fun b => UserFn.ret b))).2).1
      = ((fun i => UserFn.load (E := Unit) i (fun b => UserFn.ret b))
          ((Thread.spawn (E := Unit) ⟨[]⟩
            (fun i => UserFn.load i (fun b => UserFn.ret b))).1.stopFlag)).runFixed
          false :=
  claim4_join_no_mutation ⟨[]⟩
    (fun i => UserFn.load i (fun b => UserFn.ret b))
    (fun _ => UserFn.ReadsOnly.load _ (fun b => UserFn.ReadsOnly.ret b))

/-- C5: the flag created by `spawn` initially reads `false`, and the flag
is monotone under the library's operations: no owner-side operation ever
writes `false` into an existing flag, so once a flag reads `true` it
reads `true` after any further sequence of operations. -/
theorem claim5_flag_monotone {E T : Type} (w w' : World)
    (f : FlagId → UserFn E T) (l : List Op) (i : FlagId)
    (h : w'.read i = true) :
    (Thread.spawn w f).2.read (Thread.spawn w f).1.stopFlag = false
    ∧ (applyOps w' l).read i = true :=
  ⟨Thread.read_spawn_fresh w f, applyOps_read_mono l w' i h⟩

/-- Witness for C5: the freshly spawned flag reads `false`; a flag that
reads `true` still does after a further spawn and a further stop. -/
theorem claim5_flag_monotone_witness :
    (Thread.spawn (E := Unit) ⟨[]⟩ (fun _ => UserFn.ret (0 : Nat))).2.read
        (Thread.spawn (E := Unit) ⟨[]⟩
          (fun _ => UserFn.ret (0 : Nat))).1.stopFlag = false
    ∧ (applyOps ⟨[true]⟩ [Op.spawnOp, Op.stopOp 0]).read 0 = true :=
  claim5_flag_monotone ⟨[]⟩ ⟨[true]⟩ (fun _ => UserFn.ret 0)
    [Op.spawnOp, Op.stopOp 0] 0 (by decide)

/-- C6: `stop` is idempotent — for every handle and every `n ≥ 1`,
calling `stop` `n` times yields the same flag store as calling it once,
and hence the same `join` outcome. -/
theorem claim6_stop_idempotent {E T : Type} (t : Thread E T) (w : World)
    (n : Nat) (hn : 1 ≤ n) :
    t.stopN n w = t.stop w
    ∧ Thread.join t (t.stopN n w) = Thread.join t (t.stop w) := by
  refine ⟨Thread.stopN_eq_stop t w n hn, ?_⟩
  rw [Thread.stopN_eq_stop t w n hn]

/-- Witness for C6: three `stop` calls on a concrete handle equal one. -/
theorem claim6_stop_idempotent_witness :
    Thread.stopN (⟨⟨UserFn.ret (0 : Nat)⟩, 0⟩ : Thread Unit Nat) 3 ⟨[false]⟩
      = Thread.stop (⟨⟨UserFn.ret (0 : Nat)⟩, 0⟩ : Thread Unit Nat) ⟨[false]⟩
    ∧ Thread.join (⟨⟨UserFn.ret (0 : Nat)⟩, 0⟩ : Thread Unit Nat)
        (Thread.stopN (⟨⟨UserFn.ret (0 : Nat)⟩, 0⟩ : Thread Unit Nat) 3
          ⟨[false]⟩)
      = Thread.join (⟨⟨UserFn.ret (0 : Nat)⟩, 0⟩ : Thread Unit Nat)
        (Thread.stop (⟨⟨UserFn.ret (0 : Nat)⟩, 0⟩ : Thread Unit Nat)
          ⟨[false]⟩) :=
  claim6_stop_idempotent _ _ 3 (by decide)

/-- C7 counterexample: the claim "the flag reference passed to the user
function supports exactly `read()` and exposes no public write access to
the worker" is false for the code: the closure receives a full
`Arc<AtomicBool>`, whose `store` is public.  Formalized as "a worker's
execution can never change the flag store", it fails at the concrete
worker `store(flag, false)` run on a store whose single flag is `true`:
the run flips the flag, so the resulting store differs from the input. -/
theorem claim7_counterexample :
    ((UserFn.store 0 false (UserFn.ret true) : UserFn Unit Bool).run
        ⟨[true]⟩).2 ≠ ⟨[true]⟩ := by
  decide

/-- C7 amended: the flag reference handed to the user function is a full
atomic boolean supporting both loads and stores: a worker's `store b`
makes the flag read `b` afterwards, and a worker's `load` observes the
flag's current value.  (Only the library's own handle side is restricted
to writing `true`, via `stop`.) -/
theorem claim7_amended_flag_write_access {E T : Type} (w : World)
    (i : FlagId) (b : Bool) (v : T) (h : i < w.flags.length) :
    ((UserFn.store (E := E) i b (UserFn.ret v)).run w).2.read i = b
    ∧ ((UserFn.load (E := E) i (fun c => UserFn.ret c)).run w).1
      = Except.ok (w.read i) :=
  ⟨World.read_write_self w i b h, rfl⟩

/-- Witness for C7's amended claim at flag `0` of a one-flag store. -/
theorem claim7_amended_flag_write_access_witness :
    (0 : FlagId) < (World.mk [true]).flags.length
    ∧ (((UserFn.store (E := Unit) 0 false (UserFn.ret (5 : Nat))).run
          ⟨[true]⟩).2.read 0 = false
      ∧ ((UserFn.load (E := Unit) 0 (fun c => UserFn.ret c)).run
          ⟨[true]⟩).1 = Except.ok ((World.mk [true]).read 0)) :=
  ⟨by decide, claim7_amended_flag_write_access ⟨[true]⟩ 0 false 5 (by decide)⟩

/-- C8: handles are independent.  Spawning twice yields distinct flag
ids; `stop` on the first handle leaves the second handle's flag
unchanged and leaves the second worker's `join` result unchanged; and
with no stops each `join` returns exactly its own worker's result (the
worker's outcome with every load observing its own, still-`false`,
flag). -/
theorem claim8_handle_independence {E T : Type} (w : World)
    (f1 f2 : FlagId → UserFn E T)
    (h1 : ∀ i, (f1 i).ReadsOnly i) (h2 : ∀ i, (f2 i).ReadsOnly i) :
    (Thread.spawn w f1).1.stopFlag
      ≠ (Thread.spawn (Thread.spawn w f1).2 f2).1.stopFlag
    ∧ (Thread.stop (Thread.spawn w f1).1
          (Thread.spawn (Thread.spawn w f1).2 f2).2).read
        (Thread.spawn (Thread.spawn w f1).2 f2).1.stopFlag
      = (Thread.spawn (Thread.spawn w f1).2 f2).2.read
          (Thread.spawn (Thread.spawn w f1).2 f2).1.stopFlag
    ∧ (Thread.join (Thread.spawn (Thread.spawn w f1).2 f2).1
          (Thread.stop (Thread.spawn w f1).1
            (Thread.spawn (Thread.spawn w f1).2 f2).2)).1
      = (Thread.join (Thread.spawn (Thread.spawn w f1).2 f2).1
          (Thread.spawn (Thread.spawn w f1).2 f2).2).1
    ∧ (Thread.join (Thread.spawn w f1).1
          (Thread.spawn (Thread.spawn w f1).2 f2).2).1
      = (f1 (Thread.spawn w f1).1.stopFlag).runFixed false
    ∧ (Thread.join (Thread.spawn (Thread.spawn w f1).2 f2).1
          (Thread.spawn (Thread.spawn w f1).2 f2).2).1
      = (f2 (Thread.spawn (Thread.spawn w f1).2 f2).1.stopFlag).runFixed
          false := by
  have e1 : (Thread.spawn (E := E) w f1).1.stopFlag = w.flags.length :=
    Thread.spawn_stopFlag w f1
  have e2 : (Thread.spawn (E := E) (Thread.spawn w f1).2 f2).1.stopFlag
      = w.flags.length + 1 := by
    simp [Thread.spawn_stopFlag, Thread.spawn_world]
  have hne : (Thread.spawn (E := E) w f1).1.stopFlag
      ≠ (Thread.spawn (E := E) (Thread.spawn w f1).2 f2).1.stopFlag := by
    rw [e1, e2]; simp
  have hr2 : (Thread.stop (Thread.spawn w f1).1
        (Thread.spawn (Thread.spawn w f1).2 f2).2).read
      (Thread.spawn (Thread.spawn w f1).2 f2).1.stopFlag
      = (Thread.spawn (Thread.spawn w f1).2 f2).2.read
        (Thread.spawn (Thread.spawn w f1).2 f2).1.stopFlag :=
    World.read_write_ne _ _ _ true hne
  have hlt : w.flags.length < (Thread.spawn (E := E) w f1).2.flags.length := by
    simp [Thread.spawn_world]
  have hr1 : (Thread.spawn (E := E) (Thread.spawn w f1).2 f2).2.read
      (Thread.spawn w f1).1.stopFlag = false := by
    rw [e1]
    rw [show (Thread.spawn (E := E) (Thread.spawn w f1).2 f2).2
        = ((Thread.spawn (E := E) w f1).2.alloc false).2 from rfl]
    rw [World.read_alloc_old _ false _ hlt]
    exact Thread.read_spawn_fresh w f1
  have j2a : (Thread.join (Thread.spawn (Thread.spawn w f1).2 f2).1
        (Thread.stop (Thread.spawn w f1).1
          (Thread.spawn (Thread.spawn w f1).2 f2).2)).1
      = (f2 (Thread.spawn (Thread.spawn w f1).2 f2).1.stopFlag).runFixed
        ((Thread.stop (Thread.spawn w f1).1
          (Thread.spawn (Thread.spawn w f1).2 f2).2).read
          (Thread.spawn (Thread.spawn w f1).2 f2).1.stopFlag) :=
    UserFn.run_readsOnly_fst (h2 _) _
  have j2b : (Thread.join (Thread.spawn (Thread.spawn w f1).2 f2).1
        (Thread.spawn (Thread.spawn w f1).2 f2).2).1
      = (f2 (Thread.spawn (Thread.spawn w f1).2 f2).1.stopFlag).runFixed
        ((Thread.spawn (Thread.spawn w f1).2 f2).2.read
          (Thread.spawn (Thread.spawn w f1).2 f2).1.stopFlag) :=
    UserFn.run_readsOnly_fst (h2 _) _
  have j1 : (Thread.join (Thread.spawn w f1).1
        (Thread.spawn (Thread.spawn w f1).2 f2).2).1
      = (f1 (Thread.spawn w f1).1.stopFlag).runFixed
        ((Thread.spawn (Thread.spawn w f1).2 f2).2.read
          (Thread.spawn w f1).1.stopFlag) :=
    UserFn.run_readsOnly_fst (h1 _) _
  refine ⟨hne, hr2, ?_, ?_, ?_⟩
  · rw [j2a, j2b, hr2]
  · rw [j1, hr1]
  · rw [j2b, Thread.read_spawn_fresh]

/-- Witness for C8 with two constant workers returning `1` and `2`. -/
theorem claim8_handle_independence_witness :
    (Thread.spawn ⟨[]⟩ (constWorker 1)).1.stopFlag
      ≠ (Thread.spawn (Thread.spawn ⟨[]⟩ (constWorker 1)).2
          (constWorker 2)).1.stopFlag
    ∧ (Thread.stop (Thread.spawn ⟨[]⟩ (constWorker 1)).1
          (Thread.spawn (Thread.spawn ⟨[]⟩ (constWorker 1)).2
            (constWorker 2)).2).read
        (Thread.spawn (Thread.spawn ⟨[]⟩ (constWorker 1)).2
          (constWorker 2)).1.stopFlag
      = (Thread.spawn (Thread.spawn ⟨[]⟩ (constWorker 1)).2
          (constWorker 2)).2.read
          (Thread.spawn (Thread.spawn ⟨[]⟩ (constWorker 1)).2
            (constWorker 2)).1.stopFlag
    ∧ (Thread.join
          (Thread.spawn (Thread.spawn ⟨[]⟩ (constWorker 1)).2
            (constWorker 2)).1
          (Thread.stop (Thread.spawn ⟨[]⟩ (constWorker 1)).1
            (Thread.spawn (Thread.spawn ⟨[]⟩ (constWorker 1)).2
              (constWorker 2)).2)).1
      = (Thread.join
          (Thread.spawn (Thread.spawn ⟨[]⟩ (constWorker 1)).2
            (constWorker 2)).1
          (Thread.spawn (Thread.spawn ⟨[]⟩ (constWorker 1)).2
            (constWorker 2)).2).1
    ∧ (Thread.join (Thread.spawn ⟨[]⟩ (constWorker 1)).1
          (Thread.spawn (Thread.spawn ⟨[]⟩ (constWorker 1)).2
            (constWorker 2)).2).1
      = (constWorker 1
          (Thread.spawn ⟨[]⟩ (constWorker 1)).1.stopFlag).runFixed false
    ∧ (Thread.join
          (Thread.spawn (Thread.spawn ⟨[]⟩ (constWorker 1)).2
            (constWorker 2)).1
          (Thread.spawn (Thread.spawn ⟨[]⟩ (constWorker 1)).2
            (constWorker 2)).2).1
      = (constWorker 2
          (Thread.spawn (Thread.spawn ⟨[]⟩ (constWorker 1)).2
            (constWorker 2)).1.stopFlag).runFixed false :=
  claim8_handle_independence ⟨[]⟩ (constWorker 1) (constWorker 2)
    (fun _ => UserFn.ReadsOnly.ret 1) (fun _ => UserFn.ReadsOnly.ret 2)

/-- C10: `stop` mutates nothing but its own flag's boolean — every other
flag reads unchanged; `stop` does not consume the handle: after any
`n ≥ 1` stop calls the handle can still be joined, with the same outcome
as after one; and for a worker whose value does not consult the flag,
`stop` leaves the `join` result unchanged.  (The handle itself, including
its `jh` field, is untouched: `stop` takes the handle by shared reference
and returns only the updated store.) -/
theorem claim10_stop_frame {E T : Type} (w : World)
    (f : FlagId → UserFn E T) (j : FlagId) (n : Nat) (v : T) :
    (j ≠ (Thread.spawn w f).1.stopFlag →
      (Thread.stop (Thread.spawn w f).1 (Thread.spawn w f).2).read j
        = (Thread.spawn w f).2.read j)
    ∧ (1 ≤ n →
      Thread.join (Thread.spawn w f).1
          (Thread.stopN (Thread.spawn w f).1 n (Thread.spawn w f).2)
        = Thread.join (Thread.spawn w f).1
          (Thread.stop (Thread.spawn w f).1 (Thread.spawn w f).2))
    ∧ ((∀ i, f i = UserFn.ret v) →
      (Thread.join (Thread.spawn w f).1
          (Thread.stop (Thread.spawn w f).1 (Thread.spawn w f).2)).1
        = (Thread.join (Thread.spawn w f).1 (Thread.spawn w f).2).1) := by
  refine ⟨?_, ?_, ?_⟩
  · intro hj
    exact World.read_write_ne _ _ _ true (fun hh => hj hh.symm)
  · intro hn
    rw [Thread.stopN_eq_stop _ _ n hn]
  · intro hv
    simp [Thread.join, Thread.spawn_worker, hv w.flags.length, UserFn.run]

/-- Witness for C10: a worker returning `7`; stopping twice keeps the
handle joinable, other flags unchanged, result unchanged. -/
theorem claim10_stop_frame_witness :
    ((Thread.stop
        (Thread.spawn (E := Unit) ⟨[]⟩ (fun _ => UserFn.ret (7 : Nat))).1
        (Thread.spawn (E := Unit) ⟨[]⟩
          (fun _ => UserFn.ret (7 : Nat))).2).read 5
      = (Thread.spawn (E := Unit) ⟨[]⟩
          (fun _ => UserFn.ret (7 : Nat))).2.read 5)
    ∧ (Thread.join
        (Thread.spawn (E := Unit) ⟨[]⟩ (fun _ => UserFn.ret (7 : Nat))).1
        (Thread.stopN
          (Thread.spawn (E := Unit) ⟨[]⟩ (fun _ => UserFn.ret (7 : Nat))).1
          2
          (Thread.spawn (E := Unit) ⟨[]⟩
            (fun _ => UserFn.ret (7 : Nat))).2)
      = Thread.join
          (Thread.spawn (E := Unit) ⟨[]⟩ (fun _ => UserFn.ret (7 : Nat))).1
          (Thread.stop
            (Thread.spawn (E := Unit) ⟨[]⟩
              (fun _ => UserFn.ret (7 : Nat))).1
            (Thread.spawn (E := Unit) ⟨[]⟩
              (fun _ => UserFn.ret (7 : Nat))).2))
    ∧ ((Thread.join
        (Thread.spawn (E := Unit) ⟨[]⟩ (fun _ => UserFn.ret (7 : Nat))).1
        (Thread.stop
          (Thread.spawn (E := Unit) ⟨[]⟩ (fun _ => UserFn.ret (7 : Nat))).1
          (Thread.spawn (E := Unit) ⟨[]⟩
            (fun _ => UserFn.ret (7 : Nat))).2)).1
      = (Thread.join
          (Thread.spawn (E := Unit) ⟨[]⟩ (fun _ => UserFn.ret (7 : Nat))).1
          (Thread.spawn (E := Unit) ⟨[]⟩
            (fun _ => UserFn.ret (7 : Nat))).2).1) :=
  ⟨(claim10_stop_frame ⟨[]⟩ (fun _ => UserFn.ret 7) 5 2 7).1 (by decide),
   (claim10_stop_frame ⟨[]⟩ (fun _ => UserFn.ret 7) 5 2 7).2.1 (by decide),
   (claim10_stop_frame ⟨[]⟩ (fun _ => UserFn.ret 7) 5 2 7).2.2
     (fun _ => rfl)⟩

end Stoplight
